import Mathlib

/-
Verification of the session/protocol layer of the vehicle-telemetry admin
client (src/admin/admin_client.py).  The Python code is shallowly embedded:
lines of text are lists of characters, the mutable telemetry dictionary is a
record, and every side effect the receive loop or the connection manager
performs (socket operations, log calls, posts to the Tk event queue) is
recorded in an explicit effect list.  Fallible Python operations (the
ValueError raised by dict(...) on a pair of the wrong arity, the IndexError
raised by split("=")[1] on a list with one element) are modelled with Except.
-/

namespace AdminClient

/-- ASCII whitespace test matching the characters stripped by the Python
str.strip() call on each received line (line 163 of the source). -/
def isPyWS (c : Char) : Bool :=
  c = ' ' || c = '\t' || c = '\n' || c = '\r' || c = '\x0b' || c = '\x0c'

/-- Character-set test for the strip("OK ") calls at lines 182 and 187 of the
source: Python strips any run of the characters O, K and space from both
ends of the string. -/
def isOKChar (c : Char) : Bool :=
  c = 'O' || c = 'K' || c = ' '

/-- Python str.strip with a character predicate: drop the longest run
satisfying the predicate from the front and from the back. -/
def pyStrip (p : Char → Bool) (l : List Char) : List Char :=
  ((l.dropWhile p).reverse.dropWhile p).reverse

/-- Python str.split(sep) for a one-character separator: splits on every
occurrence of the separator and never returns the empty list (splitting the
empty string gives one empty field, as in Python). -/
def splitOnChar (c : Char) : List Char → List (List Char)
  | [] => [[]]
  | a :: as =>
    if a = c then [] :: splitOnChar c as
    else
      match splitOnChar c as with
      | [] => [[a]]
      | h :: t => (a :: h) :: t

/-- Python line.replace of the four-character pattern T, L, M, space by the
empty string (line 167 of the source): a left-to-right scan removing every
non-overlapping occurrence. -/
def replaceTLMSpace : List Char → List Char
  | 'T' :: 'L' :: 'M' :: ' ' :: rest => replaceTLMSpace rest
  | c :: cs => c :: replaceTLMSpace cs
  | [] => []

/-- The Python exceptions that can escape the per-line handling code and hit
the catch-all of the receive loop. -/
inductive PyErr where
  | valueError
  | indexError
deriving DecidableEq

/-- The mutable telemetry dictionary self.telemetry_data (lines 27 to 33 of
the source), one field per key. -/
structure Telemetry where
  direction : List Char
  speed : List Char
  battery : List Char
  temperature : List Char
  time : List Char
deriving DecidableEq

/-- Observable effects emitted while handling one received line.  The post
variants model self.after(0, ...), which marshals the call onto the Tk main
thread; the direct variants model calls executed on the receive thread
itself. -/
inductive Eff where
  | postLog (msg : List Char)
  | postUpdate
  | postDisconnect
  | directLog (msg : List Char)
  | directUpdate
deriving DecidableEq

/-- An effect is marshalled across the thread boundary exactly when it goes
through self.after. -/
def marshalled : Eff → Bool
  | Eff.postLog _ => true
  | Eff.postUpdate => true
  | Eff.postDisconnect => true
  | Eff.directLog _ => false
  | Eff.directUpdate => false

/-- One element of the list handed to dict(...) at line 168: Python accepts
the element only when the split produced exactly a key and a value, and
raises ValueError otherwise. -/
def pairOf : List (List Char) → Except PyErr (List Char × List Char)
  | [k, v] => Except.ok (k, v)
  | _ => Except.error PyErr.valueError

/-- The whole dict(...) construction at line 168: the first element of the
wrong arity raises ValueError. -/
def pairsOf : List (List (List Char)) → Except PyErr (List (List Char × List Char))
  | [] => Except.ok []
  | x :: xs =>
    match pairOf x with
    | Except.error e => Except.error e
    | Except.ok p =>
      match pairsOf xs with
      | Except.error e => Except.error e
      | Except.ok ps => Except.ok (p :: ps)

/-- Python dict.get(key, default) for a dict built from a pair list: with
duplicate keys the last occurrence wins, hence the reversed search. -/
def dictGet (prs : List (List Char × List Char)) (k dflt : List Char) : List Char :=
  match prs.reverse.find? (fun p => p.1 == k) with
  | some p => p.2
  | none => dflt

/-- Python substring containment, pat in l: some suffix of l starts with
pat. -/
def hasInfix (pat : List Char) : List Char → Bool
  | [] => pat.isEmpty
  | c :: cs => pat.isPrefixOf (c :: cs) || hasInfix pat cs

def tlmTok : List Char := "TLM".toList

def dirTok : List Char := "dir".toList

def speedTok : List Char := "speed".toList

def serverTag : List Char := "Server: ".toList

/-- Lines 165 to 180 of the source: strip the TLM marker, split the rest on
semicolons, build the dict (which may raise ValueError), then rebuild the
whole telemetry record with per-key defaults; ts defaults to the current
local time, passed in as the parameter now.  Emits the direct log call
"Telemetry received" (line 177, executed on the receive thread) and the
marshalled display update (line 180). -/
def handleTelemetry (line : List Char) (now : List Char) :
    Except PyErr (Telemetry × List Eff) :=
  let tstr := replaceTLMSpace line
  match pairsOf ((splitOnChar ';' tstr).map (splitOnChar '=')) with
  | Except.error e => Except.error e
  | Except.ok prs =>
    Except.ok
      ({ direction := dictGet prs ("dir".toList) ("N".toList)
         speed := dictGet prs ("speed".toList) ("0.0".toList)
         battery := dictGet prs ("battery".toList) ("0.0".toList)
         temperature := dictGet prs ("temp".toList) ("0.0".toList)
         time := dictGet prs ("ts".toList) now },
       [Eff.directLog ("Telemetry received".toList), Eff.postUpdate])

/-- Lines 181 to 184 of the source: direction = line.strip("OK ").split("=")[1],
an IndexError when the stripped line holds no equals sign; the display update
is invoked directly on the receive thread. -/
def handleDir (line : List Char) (td : Telemetry) :
    Except PyErr (Telemetry × List Eff) :=
  match splitOnChar '=' (pyStrip isOKChar line) with
  | _ :: v :: _ => Except.ok ({ td with direction := v }, [Eff.directUpdate])
  | _ => Except.error PyErr.indexError

/-- Lines 186 to 189 of the source: same extraction as handleDir, writing the
speed field. -/
def handleSpeed (line : List Char) (td : Telemetry) :
    Except PyErr (Telemetry × List Eff) :=
  match splitOnChar '=' (pyStrip isOKChar line) with
  | _ :: v :: _ => Except.ok ({ td with speed := v }, [Eff.directUpdate])
  | _ => Except.error PyErr.indexError

/-- Lines 161 to 193 of the source: strip the popped line, then run the
if/elif chain in source order — TLM marker first, then the dir substring,
then the speed substring, then the catch-all log branch; a line that strips
to the empty string matches no branch and is dropped. -/
def handleLine (raw : List Char) (td : Telemetry) (now : List Char) :
    Except PyErr (Telemetry × List Eff) :=
  let line := pyStrip isPyWS raw
  if !line.isEmpty && hasInfix tlmTok line then
    handleTelemetry line now
  else if !line.isEmpty && hasInfix dirTok line then
    handleDir line td
  else if !line.isEmpty && hasInfix speedTok line then
    handleSpeed line td
  else if !line.isEmpty then
    Except.ok (td, [Eff.postLog (serverTag ++ line)])
  else
    Except.ok (td, [])

/-- Text of the log message posted by the catch-all handler at line 197. -/
def recvErrMsg (e : PyErr) : List Char :=
  ("ERROR receiving data: ".toList) ++
    (match e with
     | PyErr.valueError => "ValueError".toList
     | PyErr.indexError => "IndexError".toList)

/-- Result of processing a batch of complete lines inside the receive loop:
either every line was handled, or an exception reached the catch-all at
lines 195 to 199, which posts an error log and a disconnect call and breaks
out of the loop. -/
inductive LoopOutcome where
  | ok (td : Telemetry) (effs : List Eff)
  | fatal (td : Telemetry) (effs : List Eff)
deriving DecidableEq

/-- Sequential processing of drained lines while the receiving flag is set:
the first exception turns into the posted error log plus the posted
disconnect of lines 195 to 199 and stops the loop. -/
def runLines (ls : List (List Char)) (td : Telemetry) (now : List Char) :
    LoopOutcome :=
  match ls with
  | [] => LoopOutcome.ok td []
  | l :: rest =>
    match handleLine l td now with
    | Except.error e =>
      LoopOutcome.fatal td [Eff.postLog (recvErrMsg e), Eff.postDisconnect]
    | Except.ok (td1, effs) =>
      match runLines rest td1 now with
      | LoopOutcome.ok td2 effs2 => LoopOutcome.ok td2 (effs ++ effs2)
      | LoopOutcome.fatal td2 effs2 => LoopOutcome.fatal td2 (effs ++ effs2)

/-- Lines 158 to 163 of the source: the loop
while backslash-n in buffer: line, buffer = buffer.split(backslash-n, 1).
The first component collects, in order, every complete line popped from the
buffer; the second component is the text after the last newline, which the
loop leaves in the buffer for the next read. -/
def drain : List Char → List (List Char) × List Char
  | [] => ([], [])
  | c :: cs =>
    if c = '\n' then
      ([] :: (drain cs).1, (drain cs).2)
    else
      match drain cs with
      | ([], r) => ([], c :: r)
      | (l :: ls, r) => ((c :: l) :: ls, r)

/-- Feeding a sequence of received chunks through the buffer logic, starting
from the given retained buffer: each chunk is appended to the buffer and
every complete line is drained, exactly as one iteration of the receive loop
does. -/
def feedAllAux : List Char → List (List Char) → List (List Char) × List Char
  | buf, [] => ([], buf)
  | buf, chunk :: rest =>
    let p := drain (buf ++ chunk)
    let q := feedAllAux p.2 rest
    (p.1 ++ q.1, q.2)

/-- Feeding a sequence of chunks into an initially empty buffer, returning
the ordered complete lines and the retained trailing text. -/
def feedAll (chunks : List (List Char)) : List (List Char) × List Char :=
  feedAllAux [] chunks

/-- The connection-related instance state of TelemetryInterface (lines 11 to
16 of the source): the is_connected flag, the cooperative should_receive
flag, and the socket handle (none once released, as the source sets
server_socket to None). -/
structure ClientState where
  is_connected : Bool
  should_receive : Bool
  server_socket : Option Nat
deriving DecidableEq

/-- Observable effects of the connection-manager methods: log_command calls,
console prints, socket operations, sleeps, widget updates and the receive
thread start. -/
inductive CEff where
  | log (msg : List Char)
  | stdout (msg : List Char)
  | sockCreate
  | sockSetTimeout (t : Option Nat)
  | sockConnect
  | sockSend (msg : List Char)
  | sockClose
  | sleep
  | uiUpdate
  | startReceiveThread
deriving DecidableEq

/-- The effects that operate on the socket. -/
def isSockEff : CEff → Bool
  | CEff.sockCreate => true
  | CEff.sockSetTimeout _ => true
  | CEff.sockConnect => true
  | CEff.sockSend _ => true
  | CEff.sockClose => true
  | _ => false

/-- cleanup_socket, lines 130 to 137 of the source: close the socket if one
is held (close failures are swallowed) and set the handle to None. -/
def cleanup_socket (s : ClientState) : ClientState × List CEff :=
  match s.server_socket with
  | some _ => ({ s with server_socket := none }, [CEff.sockClose])
  | none => (s, [])

/-- disconnect, lines 100 to 128 of the source: an early return when already
disconnected, otherwise clear the receiving flag, best-effort QUIT plus a
short sleep (failures ignored), close the socket, clear is_connected and
update the widgets. -/
def disconnect (s : ClientState) : ClientState × List CEff :=
  if s.is_connected = false then
    (s, [CEff.log ("Already disconnected".toList)])
  else
    let s1 : ClientState := { s with should_receive := false }
    let quitEffs : List CEff :=
      match s1.server_socket with
      | some _ => [CEff.sockSend ("QUIT\n".toList), CEff.sleep]
      | none => []
    let p := cleanup_socket s1
    ({ p.1 with is_connected := false },
     CEff.log ("Disconnecting from server...".toList) ::
       (quitEffs ++ p.2 ++
        [CEff.uiUpdate, CEff.log ("Disconnected from server".toList)]))

/-- Outcome of the blocking socket connect call at line 70, driven by the
environment. -/
inductive ConnectOutcome where
  | ok
  | timeout
  | refused
  | err
deriving DecidableEq

/-- Outcome of a socket send call, driven by the environment. -/
inductive SendOutcome where
  | ok
  | err
deriving DecidableEq

/-- connect, lines 58 to 98 of the source: an early return when already
connected; otherwise create the socket, set the 5 second timeout, attempt
the TCP connect, and on success clear the timeout and send the AUTH line.
Any of the three except branches (timeout, refused, generic) logs one error
and calls cleanup_socket; is_connected is only set after the AUTH send
succeeded, after which the receive thread is started. -/
def connect (s : ClientState) (co : ConnectOutcome) (ao : SendOutcome) :
    ClientState × List CEff :=
  if s.is_connected then
    (s, [CEff.log ("Already connected to server".toList)])
  else
    let s1 : ClientState := { s with server_socket := some 0 }
    let pre : List CEff :=
      [CEff.sockCreate, CEff.sockSetTimeout (some 5),
       CEff.log ("Connecting to 127.0.0.1:9000...".toList), CEff.sockConnect]
    match co with
    | ConnectOutcome.timeout =>
      let p := cleanup_socket s1
      (p.1, pre ++ [CEff.log ("ERROR: Connection timeout".toList)] ++ p.2)
    | ConnectOutcome.refused =>
      let p := cleanup_socket s1
      (p.1, pre ++
        [CEff.log ("ERROR: Connection refused. Is the server running?".toList)] ++ p.2)
    | ConnectOutcome.err =>
      let p := cleanup_socket s1
      (p.1, pre ++ [CEff.log ("ERROR connecting".toList)] ++ p.2)
    | ConnectOutcome.ok =>
      let pre2 := pre ++
        [CEff.sockSetTimeout none, CEff.sockSend ("AUTH admin admin123\n".toList)]
      match ao with
      | SendOutcome.err =>
        let p := cleanup_socket s1
        (p.1, pre2 ++ [CEff.log ("ERROR connecting".toList)] ++ p.2)
      | SendOutcome.ok =>
        ({ s1 with is_connected := true, should_receive := true },
         pre2 ++
           [CEff.sleep, CEff.uiUpdate,
            CEff.log ("Successfully connected to server".toList),
            CEff.startReceiveThread])

/-- send_command, lines 41 to 56 of the source: an early failure return,
with no socket operation, when not connected or the handle is gone;
otherwise print, append a trailing newline if absent, and attempt the send —
a send failure logs an error, calls disconnect and returns failure. -/
def send_command (s : ClientState) (msg : List Char) (so : SendOutcome) :
    Bool × ClientState × List CEff :=
  if !s.is_connected || s.server_socket.isNone then
    (false, s, [CEff.log ("ERROR: Not connected to server".toList)])
  else
    let wire := if msg.getLastD ' ' = '\n' then msg else msg ++ ['\n']
    match so with
    | SendOutcome.ok => (true, s, [CEff.stdout msg, CEff.sockSend wire])
    | SendOutcome.err =>
      let p := disconnect s
      (false, p.1,
       [CEff.stdout msg, CEff.sockSend wire,
        CEff.log ("ERROR sending command".toList)] ++ p.2)

/-- A sample telemetry snapshot used by the closed theorems; its field
values play no role beyond being concrete. -/
def sampleTd : Telemetry :=
  ⟨"N".toList, "0.0".toList, "0.0".toList, "0.0".toList, "00:00:00".toList⟩

/-- A sample current-time string for the closed theorems. -/
def sampleNow : List Char := "12:00:00".toList

/-- Claim C1 (code bug): on the line TLM speed=10;garbage;dir=S the dict
construction raises ValueError, so parsing does crash: the catch-all of the
receive loop posts one receive-error log and a disconnect, the other valid
pairs are not applied (the snapshot is unchanged), and no parse-warning is
emitted — contrary to the claim that the offending pair is skipped, the
valid pairs applied, and one parse-warning logged. -/
theorem malformed_pair_crashes_loop :
    handleLine ("TLM speed=10;garbage;dir=S".toList) sampleTd sampleNow
      = Except.error PyErr.valueError
    ∧ runLines [("TLM speed=10;garbage;dir=S".toList)] sampleTd sampleNow
      = LoopOutcome.fatal sampleTd
          [Eff.postLog (recvErrMsg PyErr.valueError), Eff.postDisconnect] := by
  exact ⟨rfl, rfl⟩

/-- Claim C3: the full telemetry line yields the expected snapshot, and a
telemetry line with missing keys falls back to the defaults speed 0.0,
battery 0.0, temperature 0.0, direction N, and the current local time for
the timestamp. -/
theorem telemetry_parse_examples (td : Telemetry) (now : List Char) :
    handleLine ("TLM speed=12.5;battery=73;ts=09:15:00;temp=41;dir=E".toList) td now
      = Except.ok
          ({ direction := "E".toList
             speed := "12.5".toList
             battery := "73".toList
             temperature := "41".toList
             time := "09:15:00".toList },
           [Eff.directLog ("Telemetry received".toList), Eff.postUpdate])
    ∧ handleLine ("TLM battery=50".toList) td now
      = Except.ok
          ({ direction := "N".toList
             speed := "0.0".toList
             battery := "50".toList
             temperature := "0.0".toList
             time := now },
           [Eff.directLog ("Telemetry received".toList), Eff.postUpdate]) := by
  exact ⟨rfl, rfl⟩

/-- Claim C9 (code bug): handling the direction acknowledgement OK dir=N
invokes the display update directly on the receive thread — the only
emitted effect is the direct, unmarshalled display call, so delivery to the
display collaborator is not marshalled across the thread boundary for this
message kind. -/
theorem dir_ack_touches_display_directly :
    handleLine ("OK dir=N".toList) sampleTd sampleNow
      = Except.ok ({ sampleTd with direction := "N".toList }, [Eff.directUpdate])
    ∧ marshalled Eff.directUpdate = false := by
  exact ⟨rfl, rfl⟩

/-- Claim C8: send_command invoked while not connected returns failure,
leaves the state untouched, and performs no socket operation — the only
effect is the error log. -/
theorem send_not_connected_noop (s : ClientState) (msg : List Char)
    (so : SendOutcome) (h : s.is_connected = false) :
    send_command s msg so
      = (false, s, [CEff.log ("ERROR: Not connected to server".toList)]) := by
  simp [send_command, h]

/-- Concrete instantiation of send_not_connected_noop. -/
theorem send_not_connected_noop_witness :
    (⟨false, false, none⟩ : ClientState).is_connected = false
    ∧ send_command ⟨false, false, none⟩ ("SPEED UP".toList) SendOutcome.ok
      = (false, ⟨false, false, none⟩,
         [CEff.log ("ERROR: Not connected to server".toList)]) :=
  ⟨rfl, send_not_connected_noop _ _ _ rfl⟩

/-- Claim C6: disconnect is idempotent — invoking it twice from a connected
state with a live socket closes the socket exactly once, the second call
emits only the already-disconnected log (no socket effect at all), and the
state is disconnected after each of the two calls. -/
theorem disconnect_idempotent (s : ClientState)
    (h1 : s.is_connected = true) (h2 : s.server_socket.isSome = true) :
    (((disconnect s).2 ++ (disconnect (disconnect s).1).2).countP
        (fun e => e == CEff.sockClose)) = 1
    ∧ (disconnect (disconnect s).1).2 = [CEff.log ("Already disconnected".toList)]
    ∧ ((disconnect (disconnect s).1).2.all (fun e => !isSockEff e)) = true
    ∧ (disconnect s).1.is_connected = false
    ∧ (disconnect (disconnect s).1).1.is_connected = false := by
  obtain ⟨k, hk⟩ := Option.isSome_iff_exists.mp h2
  simp [disconnect, cleanup_socket, h1, hk, isSockEff]

/-- Concrete instantiation of disconnect_idempotent. -/
theorem disconnect_idempotent_witness :
    ((⟨true, true, some 0⟩ : ClientState).is_connected = true
      ∧ (⟨true, true, some 0⟩ : ClientState).server_socket.isSome = true)
    ∧ ((((disconnect ⟨true, true, some 0⟩).2
          ++ (disconnect (disconnect ⟨true, true, some 0⟩).1).2).countP
            (fun e => e == CEff.sockClose)) = 1
      ∧ (disconnect (disconnect ⟨true, true, some 0⟩).1).2
          = [CEff.log ("Already disconnected".toList)]
      ∧ ((disconnect (disconnect ⟨true, true, some 0⟩).1).2.all
          (fun e => !isSockEff e)) = true
      ∧ (disconnect ⟨true, true, some 0⟩).1.is_connected = false
      ∧ (disconnect (disconnect ⟨true, true, some 0⟩).1).1.is_connected = false) :=
  ⟨⟨rfl, rfl⟩, disconnect_idempotent ⟨true, true, some 0⟩ rfl rfl⟩

/-- Claim C7: every failure mode of connect (timeout, refused, generic
error on the TCP connect, or a failure of the AUTH send) leaves the state
disconnected with the socket handle released, the socket close is among the
emitted effects, and exactly one TCP connect is attempted — no retry. -/
theorem connect_failure_releases_socket (s : ClientState)
    (co : ConnectOutcome) (ao : SendOutcome)
    (h1 : s.is_connected = false)
    (h2 : ¬(co = ConnectOutcome.ok ∧ ao = SendOutcome.ok)) :
    (connect s co ao).1.is_connected = false
    ∧ (connect s co ao).1.server_socket = none
    ∧ ((connect s co ao).2.countP (fun e => e == CEff.sockConnect)) = 1
    ∧ CEff.sockClose ∈ (connect s co ao).2 := by
  cases co with
  | ok =>
    cases ao with
    | ok => exact absurd ⟨rfl, rfl⟩ h2
    | err => simp [connect, cleanup_socket, h1]
  | timeout => cases ao <;> simp [connect, cleanup_socket, h1]
  | refused => cases ao <;> simp [connect, cleanup_socket, h1]
  | err => cases ao <;> simp [connect, cleanup_socket, h1]

/-- Concrete instantiation of connect_failure_releases_socket. -/
theorem connect_failure_releases_socket_witness :
    ((⟨false, false, none⟩ : ClientState).is_connected = false
      ∧ ¬(ConnectOutcome.timeout = ConnectOutcome.ok ∧ SendOutcome.ok = SendOutcome.ok))
    ∧ ((connect ⟨false, false, none⟩ ConnectOutcome.timeout SendOutcome.ok).1.is_connected
        = false
      ∧ (connect ⟨false, false, none⟩ ConnectOutcome.timeout SendOutcome.ok).1.server_socket
        = none
      ∧ ((connect ⟨false, false, none⟩ ConnectOutcome.timeout SendOutcome.ok).2.countP
          (fun e => e == CEff.sockConnect)) = 1
      ∧ CEff.sockClose
          ∈ (connect ⟨false, false, none⟩ ConnectOutcome.timeout SendOutcome.ok).2) :=
  ⟨⟨rfl, by decide⟩,
   connect_failure_releases_socket ⟨false, false, none⟩ ConnectOutcome.timeout
     SendOutcome.ok rfl (by decide)⟩

/-- Dropping a prefix by predicate only removes elements. -/
lemma mem_of_mem_dropWhile {p : Char → Bool} {a : Char} :
    ∀ {l : List Char}, a ∈ l.dropWhile p → a ∈ l := by
  intro l
  induction l with
  | nil => intro h; simp at h
  | cons c cs ih =>
    intro h
    by_cases hc : p c
    · simp only [List.dropWhile_cons, hc, if_true] at h
      exact List.mem_cons_of_mem _ (ih h)
    · simp only [List.dropWhile_cons, hc, if_false] at h
      exact h

/-- Stripping both ends only removes elements. -/
lemma mem_of_mem_pyStrip {p : Char → Bool} {a : Char} {l : List Char}
    (h : a ∈ pyStrip p l) : a ∈ l := by
  unfold pyStrip at h
  rw [List.mem_reverse] at h
  have h2 := mem_of_mem_dropWhile h
  rw [List.mem_reverse] at h2
  exact mem_of_mem_dropWhile h2

/-- Splitting a list that does not contain the separator yields the whole
list as the single field, exactly as Python split does. -/
lemma splitOnChar_of_not_mem {c : Char} :
    ∀ {l : List Char}, c ∉ l → splitOnChar c l = [l] := by
  intro l
  induction l with
  | nil => intro _; rfl
  | cons a as ih =>
    intro h
    have ha : ¬(a = c) := fun e => h (by simp [e])
    have has : c ∉ as := fun e => h (List.mem_cons_of_mem _ e)
    simp [splitOnChar, ha, ih has]

/-- Claim C5: each received line is trimmed and then classified by first
match in the fixed priority order of the source if/elif chain — telemetry
marker, then the dir substring, then the speed substring; a non-empty line
matching none of them is forwarded as a log message carrying the line
verbatim (under the Server: tag) without touching the snapshot, and a line
that trims to empty is discarded with no snapshot change and no event. -/
theorem line_classification_priority (raw : List Char) (td : Telemetry)
    (now : List Char) :
    ((pyStrip isPyWS raw).isEmpty = true →
        handleLine raw td now = Except.ok (td, []))
    ∧ ((pyStrip isPyWS raw).isEmpty = false →
        hasInfix tlmTok (pyStrip isPyWS raw) = true →
        handleLine raw td now = handleTelemetry (pyStrip isPyWS raw) now)
    ∧ ((pyStrip isPyWS raw).isEmpty = false →
        hasInfix tlmTok (pyStrip isPyWS raw) = false →
        hasInfix dirTok (pyStrip isPyWS raw) = true →
        handleLine raw td now = handleDir (pyStrip isPyWS raw) td)
    ∧ ((pyStrip isPyWS raw).isEmpty = false →
        hasInfix tlmTok (pyStrip isPyWS raw) = false →
        hasInfix dirTok (pyStrip isPyWS raw) = false →
        hasInfix speedTok (pyStrip isPyWS raw) = true →
        handleLine raw td now = handleSpeed (pyStrip isPyWS raw) td)
    ∧ ((pyStrip isPyWS raw).isEmpty = false →
        hasInfix tlmTok (pyStrip isPyWS raw) = false →
        hasInfix dirTok (pyStrip isPyWS raw) = false →
        hasInfix speedTok (pyStrip isPyWS raw) = false →
        handleLine raw td now
          = Except.ok (td, [Eff.postLog (serverTag ++ pyStrip isPyWS raw)])) := by
  refine ⟨?_, ?_, ?_, ?_, ?_⟩ <;> intros <;> simp_all [handleLine]

/-- Concrete instantiation of line_classification_priority on the log
branch. -/
theorem line_classification_priority_witness :
    ((pyStrip isPyWS ("  hello  ".toList)).isEmpty = false
      ∧ hasInfix tlmTok (pyStrip isPyWS ("  hello  ".toList)) = false
      ∧ hasInfix dirTok (pyStrip isPyWS ("  hello  ".toList)) = false
      ∧ hasInfix speedTok (pyStrip isPyWS ("  hello  ".toList)) = false)
    ∧ handleLine ("  hello  ".toList) sampleTd sampleNow
        = Except.ok (sampleTd, [Eff.postLog ("Server: hello".toList)]) :=
  ⟨⟨rfl, by decide, by decide, by decide⟩,
   (line_classification_priority ("  hello  ".toList) sampleTd sampleNow).2.2.2.2
     rfl (by decide) (by decide) (by decide)⟩

/-- Claim C2, counterexample: on the line dir=1=2 the code sets the
direction to 1, the field between the first and the second equals sign,
whereas the token after the last equals sign in the line is 2 — so the
extraction rule stated by the claim does not describe the code. -/
theorem dir_ack_last_token_counterexample :
    handleLine ("dir=1=2".toList) sampleTd sampleNow
      = Except.ok ({ sampleTd with direction := "1".toList }, [Eff.directUpdate])
    ∧ (splitOnChar '=' ("dir=1=2".toList)).getLastD [] = "2".toList
    ∧ ("1".toList : List Char) ≠ "2".toList :=
  ⟨rfl, rfl, by decide⟩

/-- Claim C2 as amended: on a line classified as a direction
acknowledgement, the direction is set to the second field of splitting the
line on the equals sign after the characters O, K and space are stripped
from both ends (the token between the first and second equals signs), and
no other snapshot field changes; a speed acknowledgement updates only the
speed field by the same rule. -/
theorem ack_updates_single_field (raw : List Char) (td : Telemetry)
    (now : List Char) (k v : List Char) (rest : List (List Char))
    (hne : (pyStrip isPyWS raw).isEmpty = false)
    (hT : hasInfix tlmTok (pyStrip isPyWS raw) = false) :
    (hasInfix dirTok (pyStrip isPyWS raw) = true →
      splitOnChar '=' (pyStrip isOKChar (pyStrip isPyWS raw)) = k :: v :: rest →
      handleLine raw td now
        = Except.ok ({ td with direction := v }, [Eff.directUpdate]))
    ∧ (hasInfix dirTok (pyStrip isPyWS raw) = false →
      hasInfix speedTok (pyStrip isPyWS raw) = true →
      splitOnChar '=' (pyStrip isOKChar (pyStrip isPyWS raw)) = k :: v :: rest →
      handleLine raw td now
        = Except.ok ({ td with speed := v }, [Eff.directUpdate])) := by
  constructor <;> intros <;> simp_all [handleLine, handleDir, handleSpeed]

/-- Concrete instantiation of ack_updates_single_field. -/
theorem ack_updates_single_field_witness :
    ((pyStrip isPyWS ("OK dir=N".toList)).isEmpty = false
      ∧ hasInfix tlmTok (pyStrip isPyWS ("OK dir=N".toList)) = false
      ∧ hasInfix dirTok (pyStrip isPyWS ("OK dir=N".toList)) = true
      ∧ splitOnChar '=' (pyStrip isOKChar (pyStrip isPyWS ("OK dir=N".toList)))
          = ["dir".toList, "N".toList])
    ∧ handleLine ("OK dir=N".toList) sampleTd sampleNow
        = Except.ok ({ sampleTd with direction := "N".toList }, [Eff.directUpdate]) :=
  ⟨⟨rfl, by decide, by decide, by decide⟩,
   (ack_updates_single_field ("OK dir=N".toList) sampleTd sampleNow
      ("dir".toList) ("N".toList) [] rfl (by decide)).1 (by decide) (by decide)⟩

/-- Claim C10: a trimmed non-empty line that contains the dir substring (or
the speed substring) but not the telemetry marker and holds no equals sign
raises an IndexError in the acknowledgement branch; the catch-all of the
receive loop turns it into one posted receive-error log plus a posted
disconnect, terminating the connection rather than treating the line as a
log line or a line-scoped parse error. -/
theorem ack_without_eq_kills_connection (raw : List Char) (td : Telemetry)
    (now : List Char)
    (hne : (pyStrip isPyWS raw).isEmpty = false)
    (hT : hasInfix tlmTok (pyStrip isPyWS raw) = false)
    (hds : hasInfix dirTok (pyStrip isPyWS raw) = true
           ∨ hasInfix speedTok (pyStrip isPyWS raw) = true)
    (heq : '=' ∉ pyStrip isPyWS raw) :
    handleLine raw td now = Except.error PyErr.indexError
    ∧ runLines [raw] td now
      = LoopOutcome.fatal td
          [Eff.postLog (recvErrMsg PyErr.indexError), Eff.postDisconnect] := by
  have hstrip : '=' ∉ pyStrip isOKChar (pyStrip isPyWS raw) :=
    fun h => heq (mem_of_mem_pyStrip h)
  have hsplit := splitOnChar_of_not_mem hstrip
  have hmain : handleLine raw td now = Except.error PyErr.indexError := by
    rcases hds with hd | hs
    · simp [handleLine, handleDir, hne, hT, hd, hsplit]
    · by_cases hd : hasInfix dirTok (pyStrip isPyWS raw) = true
      · simp [handleLine, handleDir, hne, hT, hd, hsplit]
      · have hd2 : hasInfix dirTok (pyStrip isPyWS raw) = false := by
          revert hd; cases hasInfix dirTok (pyStrip isPyWS raw) <;> simp
        simp [handleLine, handleSpeed, hne, hT, hd2, hs, hsplit]
  refine ⟨hmain, ?_⟩
  simp [runLines, hmain]

/-- Concrete instantiation of ack_without_eq_kills_connection on the line
direction, which contains dir but no equals sign. -/
theorem ack_without_eq_kills_connection_witness :
    ((pyStrip isPyWS ("direction".toList)).isEmpty = false
      ∧ hasInfix tlmTok (pyStrip isPyWS ("direction".toList)) = false
      ∧ hasInfix dirTok (pyStrip isPyWS ("direction".toList)) = true
      ∧ ('=' ∉ pyStrip isPyWS ("direction".toList)))
    ∧ (handleLine ("direction".toList) sampleTd sampleNow
        = Except.error PyErr.indexError
      ∧ runLines [("direction".toList)] sampleTd sampleNow
        = LoopOutcome.fatal sampleTd
            [Eff.postLog (recvErrMsg PyErr.indexError), Eff.postDisconnect]) :=
  ⟨⟨rfl, by decide, by decide, by decide⟩,
   ack_without_eq_kills_connection ("direction".toList) sampleTd sampleNow rfl
     (by decide) (Or.inl (by decide)) (by decide)⟩

/-- Draining distributes over appending more input: the lines of the grown
buffer are the lines already drained plus the lines obtained by draining the
retained tail followed by the new input. -/
lemma drain_append (x y : List Char) :
    drain (x ++ y)
      = ((drain x).1 ++ (drain ((drain x).2 ++ y)).1,
         (drain ((drain x).2 ++ y)).2) := by
  induction x with
  | nil => simp [drain]
  | cons c cs ih =>
    by_cases hc : c = '\n'
    · subst hc
      simp only [List.cons_append, drain, if_pos]
      simp [ih]
    · rcases h1 : drain cs with ⟨l1, r1⟩
      rw [h1] at ih
      simp only at ih
      cases l1 with
      | nil =>
        rcases h2 : drain (r1 ++ y) with ⟨l2, r2⟩
        rw [h2] at ih
        simp only [List.nil_append] at ih
        cases l2 with
        | nil => simp [drain, hc, h1, h2, ih, List.cons_append]
        | cons a b => simp [drain, hc, h1, h2, ih, List.cons_append]
      | cons a b =>
        simp only [List.cons_append] at ih
        simp [drain, hc, h1, ih, List.cons_append]

/-- The retained tail of a drain holds no newline, so draining it again
yields no line. -/
lemma drain_snd_drain (l : List Char) :
    drain ((drain l).2) = ([], (drain l).2) := by
  induction l with
  | nil => rfl
  | cons c cs ih =>
    by_cases hc : c = '\n'
    · subst hc
      simp [drain, ih]
    · rcases h1 : drain cs with ⟨l1, r1⟩
      rw [h1] at ih
      simp only at ih
      cases l1 with
      | nil => simp [drain, hc, h1, ih]
      | cons a b => simp [drain, hc, h1, ih]

/-- Feeding chunks one at a time from a newline-free buffer produces exactly
the drain of the concatenated input. -/
lemma feedAllAux_eq (chunks : List (List Char)) :
    ∀ buf, drain buf = ([], buf) →
      feedAllAux buf chunks = drain (buf ++ chunks.flatten) := by
  induction chunks with
  | nil =>
    intro buf h
    simp [feedAllAux, h]
  | cons c rest ih =>
    intro buf h
    have ihh := ih ((drain (buf ++ c)).2) (drain_snd_drain (buf ++ c))
    simp only [feedAllAux, List.flatten_cons]
    rw [← List.append_assoc, drain_append (buf ++ c) rest.flatten, ihh]

/-- Claim C4: the line buffer is chunking-invariant — feeding any two chunk
sequences with the same concatenation produces the same ordered line
sequence and the same retained tail, and the result is exactly the drain of
the concatenation (lines before each newline in order, text after the last
newline retained). -/
theorem linebuffer_chunk_invariance (cs1 cs2 : List (List Char))
    (h : cs1.flatten = cs2.flatten) :
    feedAll cs1 = drain cs1.flatten ∧ feedAll cs1 = feedAll cs2 := by
  have e1 : feedAll cs1 = drain cs1.flatten := by
    have e := feedAllAux_eq cs1 [] rfl
    simpa [feedAll] using e
  have e2 : feedAll cs2 = drain cs2.flatten := by
    have e := feedAllAux_eq cs2 [] rfl
    simpa [feedAll] using e
  exact ⟨e1, by rw [e1, e2, h]⟩

/-- Concrete instantiation of linebuffer_chunk_invariance: one chunk versus
three chunks splitting the same two lines plus a trailing fragment. -/
theorem linebuffer_chunk_invariance_witness :
    (["ab\ncd\ne".toList] : List (List Char)).flatten
      = ["a".toList, "b\nc".toList, "d\ne".toList].flatten
    ∧ feedAll ["ab\ncd\ne".toList]
        = drain ((["ab\ncd\ne".toList] : List (List Char)).flatten)
    ∧ feedAll ["ab\ncd\ne".toList]
        = feedAll ["a".toList, "b\nc".toList, "d\ne".toList] :=
  ⟨by decide,
   (linebuffer_chunk_invariance ["ab\ncd\ne".toList]
      ["a".toList, "b\nc".toList, "d\ne".toList] (by decide)).1,
   (linebuffer_chunk_invariance ["ab\ncd\ne".toList]
      ["a".toList, "b\nc".toList, "d\ne".toList] (by decide)).2⟩

end AdminClient
